import Mathlib

/-!
Verification of the tag-mutation algebra, the validator and the
validation-and-notification workflow of the `rust-lambda-s3-tagging-sqs`
lambda (sources: `src/generate_tags.rs`, `src/lib.rs`, `src/main.rs`).

The AWS SDK types are embedded structurally: an S3 `Tag` is a pair of
optional strings (the builder fills both fields with `some`), a `Tagging`
holds an optional list of tags (`Tagging::builder().build()` leaves it
absent).  The `TagSet` trait of `generate_tags.rs` lets every algebra
operation read its receiver as `Option<&[Tag]>`, so the operations are
embedded as functions on `Option (List Tag)`.  The two remote clients
(S3, SQS) are embedded as an oracle structure `S3World` giving each
call's result, and the effectful functions additionally return the list
of remote calls they issued, in order.
-/

namespace S3Tagging

/-- `aws_sdk_s3::model::Tag`: both fields are optional in the SDK model;
`Tag::builder().key(k).value(v).build()` yields `⟨some k, some v⟩`. -/
structure Tag where
  key : Option String
  value : Option String
deriving DecidableEq

/-- `aws_sdk_s3::model::Tagging`: `tag_set` is `Option<Vec<Tag>>`;
`Tagging::builder().build()` leaves it `none`. -/
structure Tagging where
  tag_set : Option (List Tag)
deriving DecidableEq

/-- `tag_as_true` of `generate_tags.rs`: a `Tagging` holding the single
tag `{tag_name, "true"}`. -/
def tag_as_true (tag_name : String) : Tagging :=
  ⟨some [⟨some tag_name, some "true"⟩]⟩

/-- `tag_as_false` of `generate_tags.rs`. -/
def tag_as_false (tag_name : String) : Tagging :=
  ⟨some [⟨some tag_name, some "false"⟩]⟩

/-- `add_true_tag` of `generate_tags.rs` (receiver seen through the
`TagSet` trait as `Option<&[Tag]>`): retain the tags whose key differs
from `tag_name`, push `{tag_name, "true"}`. -/
def add_true_tag (self : Option (List Tag)) (tag_name : String) : Tagging :=
  let new_tag : Tag := ⟨some tag_name, some "true"⟩
  match self with
  | some tags => ⟨some ((tags.filter fun tag => tag.key != some tag_name) ++ [new_tag])⟩
  | none => ⟨some [new_tag]⟩

/-- `add_false_tag` of `generate_tags.rs`. -/
def add_false_tag (self : Option (List Tag)) (tag_name : String) : Tagging :=
  let new_tag : Tag := ⟨some tag_name, some "false"⟩
  match self with
  | some tags => ⟨some ((tags.filter fun tag => tag.key != some tag_name) ++ [new_tag])⟩
  | none => ⟨some [new_tag]⟩

/-- `replace_with_true_tag` of `generate_tags.rs`: only when some tag has
key `old_tag_name` are those tags removed and `{new_tag_name, "true"}`
pushed; otherwise the list is returned unchanged. -/
def replace_with_true_tag (self : Option (List Tag)) (old_tag_name new_tag_name : String) :
    Tagging :=
  let new_tag : Tag := ⟨some new_tag_name, some "true"⟩
  match self with
  | some tags =>
    if tags.any fun tag => tag.key == some old_tag_name then
      ⟨some ((tags.filter fun tag => tag.key != some old_tag_name) ++ [new_tag])⟩
    else
      ⟨some tags⟩
  | none => ⟨some [new_tag]⟩

/-- `replace_with_false_tag` of `generate_tags.rs`. -/
def replace_with_false_tag (self : Option (List Tag)) (old_tag_name new_tag_name : String) :
    Tagging :=
  let new_tag : Tag := ⟨some new_tag_name, some "false"⟩
  match self with
  | some tags =>
    if tags.any fun tag => tag.key == some old_tag_name then
      ⟨some ((tags.filter fun tag => tag.key != some old_tag_name) ++ [new_tag])⟩
    else
      ⟨some tags⟩
  | none => ⟨some [new_tag]⟩

/-- `remove_tag` of `generate_tags.rs`: drop every tag with the given key;
an empty remainder (and an absent input) yields `Tagging::builder().build()`,
whose tag set is absent. -/
def remove_tag (self : Option (List Tag)) (tag_name : String) : Tagging :=
  match self with
  | some tags =>
    let previous_tags := tags.filter fun tag => tag.key != some tag_name
    if previous_tags.isEmpty then ⟨none⟩ else ⟨some previous_tags⟩
  | none => ⟨none⟩

/-- The string value the builders write for a boolean, packaging the
`_true`/`_false` pairs of `generate_tags.rs` into one boolean-indexed form. -/
def bool_string (b : Bool) : String :=
  if b then "true" else "false"

/-- The boolean-indexed view of `add_true_tag` / `add_false_tag`. -/
def upsert (existing : Option (List Tag)) (tag_name : String) (b : Bool) : Tagging :=
  if b then add_true_tag existing tag_name else add_false_tag existing tag_name

/-- The boolean-indexed view of `replace_with_true_tag` / `replace_with_false_tag`. -/
def replace (existing : Option (List Tag)) (old_tag_name new_tag_name : String) (b : Bool) :
    Tagging :=
  if b then replace_with_true_tag existing old_tag_name new_tag_name
  else replace_with_false_tag existing old_tag_name new_tag_name

/-- `aws_lambda_events::s3::S3Bucket`, restricted to the field the code reads. -/
structure S3Bucket where
  name : Option String
deriving DecidableEq

/-- `aws_lambda_events::s3::S3Object`, restricted to the fields the code reads
(`size` is `Option<i64>`; no check exercises 64-bit wrap-around, so it is
embedded as `Option Int`). -/
structure S3Object where
  key : Option String
  size : Option Int
  version_id : Option String
deriving DecidableEq

/-- `aws_lambda_events::s3::S3Entity`, restricted to the fields the code reads. -/
structure S3Entity where
  bucket : S3Bucket
  object : S3Object
deriving DecidableEq

/-- Split a character list at every occurrence of `sep`, the semantics of
Rust `str::split` with a one-character pattern (`""` gives `[""]`). -/
def splitChar (sep : Char) : List Char → List (List Char)
  | [] => [[]]
  | c :: rest =>
    if c = sep then [] :: splitChar sep rest
    else
      match splitChar sep rest with
      | [] => [[c]]
      | h :: t => (c :: h) :: t

/-- Split a file name at its last dot: `some (before, after)` when it has a
dot, `none` otherwise; the recursion mirrors `rsplitn(2, '.')` of Rust's
`path::rsplit_file_at_dot`. -/
def rsplitDot : List Char → Option (List Char × List Char)
  | [] => none
  | c :: rest =>
    match rsplitDot rest with
    | some (before, after) => some (c :: before, after)
    | none => if c = '.' then some ([], rest) else none

/-- The path components of a key on a Unix platform: empty pieces (repeated
or trailing separators) and `.` pieces are not components. -/
def path_components (key : String) : List (List Char) :=
  (splitChar '/' key.data).filter fun comp => !comp.isEmpty && comp != ['.']

/-- Rust `Path::file_name`: the final component, `none` when there is none or
the path terminates in `..`. -/
def path_file_name (key : String) : Option (List Char) :=
  match (path_components key).getLast? with
  | none => none
  | some comp => if comp = ['.', '.'] then none else some comp

/-- Rust `Path::file_stem` on the key: the file name up to (not including)
its last dot; the whole file name when it has no dot or starts with its only
dot. -/
def file_stem (key : String) : Option (List Char) :=
  match path_file_name key with
  | none => none
  | some name =>
    match rsplitDot name with
    | none => some name
    | some (before, _) => if before.isEmpty then some name else some before

/-- Rust `Path::extension` on the key: the file name after its last dot,
`none` when the name has no dot or starts with its only dot. -/
def path_extension (key : String) : Option (List Char) :=
  match path_file_name key with
  | none => none
  | some name =>
    match rsplitDot name with
    | none => none
    | some (before, after) => if before.isEmpty then none else some after

/-- `check_file_extension` of `lib.rs`: `some reason` when the check fails,
`none` when it passes. -/
def check_file_extension (s3_entity : S3Entity) : Option String :=
  match s3_entity.object.key with
  | none => some "Missing object key"
  | some key =>
    match path_extension key with
    | none => some "Missing file extension"
    | some file_extension =>
      if String.mk file_extension != "txt" then
        some "Invalid file extension, should be .txt"
      else
        none

/-- `check_file_size` of `lib.rs`. -/
def check_file_size (s3_entity : S3Entity) : Option String :=
  match s3_entity.object.size with
  | none => some "Missing object size"
  | some size =>
    if size ≤ 0 then some "Invalid size, it should be greater than 0" else none

/-- `check_file_name` of `lib.rs`.  The outer `none` embeds the panic of
`.file_stem().unwrap()` on a key with no file stem; `some reason?` is the
check's normal return.  Rust `char::is_numeric` is embedded as the ASCII
digit test, with which it agrees on every ASCII character (no claim
exercises non-ASCII numerals). -/
def check_file_name (s3_entity : S3Entity) : Option (Option String) :=
  match s3_entity.object.key with
  | none => some (some "Missing object key")
  | some key =>
    match file_stem key with
    | none => none
    | some file_name_without_ext =>
      let parts := splitChar '-' file_name_without_ext
      if parts.length ≠ 4 then
        some (some "Invalid file name format, it should be formated as a Prod ID")
      else if parts.all fun part => part.all fun c => c.isDigit then
        some none
      else
        some (some "Invalid file name format, it should be a numeric code")

/-- `is_valid_file` of `lib.rs`: the three checks run unconditionally, each
failure reason is pushed in declaration order and the reasons are joined
with `", "`.  The outer `none` embeds the panic propagated from
`check_file_name`. -/
def is_valid_file (s3_entity : S3Entity) : Option (Bool × String) :=
  match check_file_name s3_entity with
  | none => none
  | some name_check =>
    let error_messages :=
      ([check_file_extension s3_entity, check_file_size s3_entity, name_check]).filterMap id
    if error_messages.isEmpty then
      some (true, "File is valid")
    else
      some (false, String.intercalate ", " error_messages)

/-- Rust `key.replace("+", " ")` of `lib.rs` (single-character pattern, so a
character-wise map). -/
def decode_plus (s : String) : String :=
  String.mk (s.data.map fun c => if c = '+' then ' ' else c)

/-- The `ValidationMessageBody` struct of `main.rs`. -/
structure ValidationMessageBody where
  workflow : String
  exc_id : String
  categories : List String
  message : String
  continue_url : Option String
  abort_url : Option String
deriving DecidableEq

/-- The `Response` struct of `main.rs`. -/
structure Response where
  req_id : String
  message : String
deriving DecidableEq

/-- One remote call the workflow issues: the two S3 tagging calls and the
SQS `send_message` (its body kept structured; JSON serialization is the
transport's concern). -/
inductive Call where
  | putObjectTagging (bucket key version_id : String) (tagging : Tagging)
  | getObjectTagging (bucket key version_id : String)
  | sendMessage (queue_url : String) (body : ValidationMessageBody) (group_id : String)
deriving DecidableEq

/-- The oracle for the external collaborators: what each remote call would
return.  `getTaggingResult` yields the `tag_set` of the
`GetObjectTaggingOutput`; errors are the service error's display string. -/
structure S3World where
  putTaggingResult : String → String → String → Tagging → Except String Unit
  getTaggingResult : String → String → String → Except String (Option (List Tag))
  sendMessageResult : String → ValidationMessageBody → String → Except String Unit

/-- `single_tag` of `lib.rs`: validate bucket, key (decoding `+` to space)
and version id, then overwrite the object's tags with the single
`{tag_name, "true"}` tag.  Returns the Rust result paired with the list of
S3 calls issued. -/
def single_tag (w : S3World) (event_s3_attributes : S3Entity) (tag_name : String) :
    Except String Unit × List Call :=
  match event_s3_attributes.bucket.name with
  | none => (Except.error "Missing bucket name", [])
  | some bucket_name =>
    match event_s3_attributes.object.key with
    | none => (Except.error "Missing object key", [])
    | some raw_key =>
      let object_key := decode_plus raw_key
      match event_s3_attributes.object.version_id with
      | none =>
        (Except.error "Object has no version ID defined, is versioning enabled in the bucket?",
          [])
      | some object_version_id =>
        let call := Call.putObjectTagging bucket_name object_key object_version_id
          (tag_as_true tag_name)
        match w.putTaggingResult bucket_name object_key object_version_id
            (tag_as_true tag_name) with
        | Except.ok u => (Except.ok u, [call])
        | Except.error original_error =>
          (Except.error ("Original Error: " ++ original_error ++ " Caused: Could not add tag "
            ++ tag_name ++ " to Object s3://" ++ bucket_name ++ "/" ++ object_key
            ++ " versionId: " ++ object_version_id), [call])

/-- `add_tag` of `lib.rs`: validate bucket, key (decoding `+` to space) and
version id, fetch the object's current tags, merge the `{tag_name, "true"}`
tag in with `add_true_tag`, and write the merged collection back. -/
def add_tag (w : S3World) (event_s3_attributes : S3Entity) (tag_name : String) :
    Except String Unit × List Call :=
  match event_s3_attributes.bucket.name with
  | none => (Except.error "Missing bucket name", [])
  | some bucket_name =>
    match event_s3_attributes.object.key with
    | none => (Except.error "Missing object key", [])
    | some raw_key =>
      let object_key := decode_plus raw_key
      match event_s3_attributes.object.version_id with
      | none =>
        (Except.error "Object has no version ID defined, is versioning enabled in the bucket?",
          [])
      | some object_version_id =>
        let get_call := Call.getObjectTagging bucket_name object_key object_version_id
        match w.getTaggingResult bucket_name object_key object_version_id with
        | Except.error original_error =>
          (Except.error ("Original Error: " ++ original_error
            ++ "; Could not get tags from to Object s3://" ++ bucket_name ++ "/" ++ object_key
            ++ " versionId: " ++ object_version_id), [get_call])
        | Except.ok current_tags =>
          let input := add_true_tag current_tags tag_name
          let put_call := Call.putObjectTagging bucket_name object_key object_version_id input
          match w.putTaggingResult bucket_name object_key object_version_id input with
          | Except.ok u => (Except.ok u, [get_call, put_call])
          | Except.error original_error =>
            (Except.error ("Original Error: " ++ original_error ++ "; Could not add tag "
              ++ tag_name ++ " to Object s3://" ++ bucket_name ++ "/" ++ object_key
              ++ " versionId: " ++ object_version_id), [get_call, put_call])

/-- One record of the inbound `S3Event`, restricted to the field the code
reads. -/
structure S3EventRecord where
  s3 : S3Entity
deriving DecidableEq

/-- The inbound `LambdaEvent<S3Event>`: its records and the context's
request id. -/
structure LambdaEvent where
  records : List S3EventRecord
  request_id : String
deriving DecidableEq

/-- The two queue-URL environment variables `function_handler` reads
(`none` embeds an unset variable). -/
structure Env where
  success_queue_url : Option String
  failure_queue_url : Option String
deriving DecidableEq

/-- `function_handler` of `main.rs`.  The first component is the handler's
outcome — `none` embeds the panic propagated out of `is_valid_file`,
`some (Except.error msg)` an early return through `?`, `some (Except.ok r)`
the normal `Response` — and the second is the list of remote calls issued,
in order. -/
def function_handler (env : Env) (w : S3World) (event : LambdaEvent) :
    Option (Except String Response) × List Call :=
  match env.success_queue_url with
  | none => (some (Except.error "Missing SUCCESS_QUEUE_URL environment variable"), [])
  | some success_queue_url =>
    match env.failure_queue_url with
    | none => (some (Except.error "Missing FAILURE_QUEUE_URL environment variable"), [])
    | some failure_queue_url =>
      match event.records.head? with
      | none => (some (Except.error "No records found in event"), [])
      | some record =>
        let event_s3_attributes := record.s3
        let r1 := single_tag w event_s3_attributes "validating"
        match r1.1 with
        | Except.error msg => (some (Except.error msg), r1.2)
        | Except.ok _ =>
          match is_valid_file event_s3_attributes with
          | none => (none, r1.2)
          | some (file_valid, validation_message) =>
            if file_valid then
              let r2 := single_tag w event_s3_attributes "validated"
              match r2.1 with
              | Except.error msg => (some (Except.error msg), r1.2 ++ r2.2)
              | Except.ok _ =>
                let r3 := add_tag w event_s3_attributes "valid"
                match r3.1 with
                | Except.error msg => (some (Except.error msg), r1.2 ++ r2.2 ++ r3.2)
                | Except.ok _ =>
                  let success_message : ValidationMessageBody :=
                    ⟨"Validation_Workflow", event.request_id, ["CD-TECH", "AM-DEVS"],
                      validation_message, none, none⟩
                  let send_call := Call.sendMessage success_queue_url success_message
                    "ValidationGroup"
                  match w.sendMessageResult success_queue_url success_message
                      "ValidationGroup" with
                  | Except.error msg =>
                    (some (Except.error msg), r1.2 ++ r2.2 ++ r3.2 ++ [send_call])
                  | Except.ok _ =>
                    (some (Except.ok ⟨event.request_id, validation_message⟩),
                      r1.2 ++ r2.2 ++ r3.2 ++ [send_call])
            else
              let r2 := single_tag w event_s3_attributes "validated"
              match r2.1 with
              | Except.error msg => (some (Except.error msg), r1.2 ++ r2.2)
              | Except.ok _ =>
                let r3 := add_tag w event_s3_attributes "quarentine"
                match r3.1 with
                | Except.error msg => (some (Except.error msg), r1.2 ++ r2.2 ++ r3.2)
                | Except.ok _ =>
                  let failure_message : ValidationMessageBody :=
                    ⟨"Validation_Workflow", event.request_id, ["CD-TECH", "AM-DEVS"],
                      validation_message, some "https://example.com/continue",
                      some "https://example.com/abort"⟩
                  let send_call := Call.sendMessage failure_queue_url failure_message
                    "ValidationGroup"
                  match w.sendMessageResult failure_queue_url failure_message
                      "ValidationGroup" with
                  | Except.error msg =>
                    (some (Except.error msg), r1.2 ++ r2.2 ++ r3.2 ++ [send_call])
                  | Except.ok _ =>
                    (some (Except.ok ⟨event.request_id, validation_message⟩),
                      r1.2 ++ r2.2 ++ r3.2 ++ [send_call])

/-- The object key a call sends to the object store: `none` for the
message-channel call, which carries no key. -/
def Call.storeKey : Call → Option String
  | Call.putObjectTagging _ key _ _ => some key
  | Call.getObjectTagging _ key _ => some key
  | Call.sendMessage _ _ _ => none

/-- A well-behaved concrete world for witnesses: every S3 call succeeds, the
fetched tag collection is the single `validated` tag just written, every
send succeeds. -/
def sample_world : S3World where
  putTaggingResult := fun _ _ _ _ => Except.ok ()
  getTaggingResult := fun _ _ _ => Except.ok (some [⟨some "validated", some "true"⟩])
  sendMessageResult := fun _ _ _ => Except.ok ()

/-- A concrete environment with both queue URLs set. -/
def sample_env : Env := ⟨some "https://sqs/success", some "https://sqs/failure"⟩

/-- A concrete invalid-file entity (wrong extension, zero size). -/
def sample_invalid_entity : S3Entity :=
  ⟨⟨some "my-bucket"⟩, ⟨some "bad.csv", some 0, some "v1"⟩⟩

/-- A concrete entity whose key needs `+` decoding. -/
def sample_plus_entity : S3Entity :=
  ⟨⟨some "my-bucket"⟩, ⟨some "1-2-3-4+x.txt", some 10, some "v1"⟩⟩

/-- A concrete entity with no version id. -/
def sample_unversioned_entity : S3Entity :=
  ⟨⟨some "my-bucket"⟩, ⟨some "1-2-3-4.txt", some 10, none⟩⟩

/-- Filtering twice with the same predicate filters once. -/
theorem filter_self_idem {α : Type} (p : α → Bool) (l : List α) :
    (l.filter p).filter p = l.filter p := by
  induction l with
  | nil => rfl
  | cons a t ih =>
    by_cases h : p a = true
    · simp [List.filter_cons, h, ih]
    · simp [List.filter_cons, h, ih]

/-- C7: `remove_tag` is idempotent — removing the same name from the result
of a removal changes nothing (both the empty-remainder case, which collapses
to the absent tag set, and the nonempty case, which no longer holds the
name, are fixed points). -/
theorem remove_tag_idempotent (existing : Option (List Tag)) (n : String) :
    remove_tag (remove_tag existing n).tag_set n = remove_tag existing n := by
  cases existing with
  | none => rfl
  | some tags =>
    show remove_tag (remove_tag (some tags) n).tag_set n = remove_tag (some tags) n
    cases hf : tags.filter (fun tag => tag.key != some n) with
    | nil => simp [remove_tag, hf]
    | cons a l =>
      have hft : ((a :: l).filter fun tag => tag.key != some n) = a :: l := by
        rw [← hf, filter_self_idem]
      simp [remove_tag, hf, hft]

/-- Counterexample to C5: removing the only tag yields the builder's default
`Tagging`, whose tag set is absent (`none`), not the empty-but-present
`some []` the claim requires. -/
theorem remove_tag_empty_counterexample :
    (remove_tag (some [⟨some "validating", some "true"⟩]) "validating").tag_set = none ∧
    (remove_tag (some [⟨some "validating", some "true"⟩]) "validating").tag_set ≠ some [] := by
  exact ⟨rfl, by decide⟩

/-- C5 as amended: when `remove_tag` leaves no remaining tags (and when the
input collection is absent) the result is the default `Tagging` with an
absent (`none`) tag set — the same representation as "no tags" — so
downstream writers cannot tell "clear all tags" from "no change"; a
nonempty remainder is returned present. -/
theorem remove_tag_empty_is_absent (tags : List Tag) (n : String) :
    remove_tag (some tags) n =
      (if (tags.filter fun tag => tag.key != some n).isEmpty then (⟨none⟩ : Tagging)
       else ⟨some (tags.filter fun tag => tag.key != some n)⟩) ∧
    remove_tag none n = (⟨none⟩ : Tagging) :=
  ⟨rfl, rfl⟩

/-- Counterexample to C4: when the collection holds both a tag named `old`
and a tag equal to `{new, "true"}`, the replacement keeps the latter (it is
not named `old`) and appends a second copy, so the result does not contain
exactly one tag `{new, "true"}` — it contains it twice. -/
theorem replace_exactly_one_counterexample :
    ¬ ((((replace_with_true_tag
          (some [⟨some "old", some "v"⟩, ⟨some "new", some "true"⟩]) "old" "new").tag_set.getD
          []).countP fun tag => decide (tag = ⟨some "new", some "true"⟩)) = 1) ∧
    (((replace_with_true_tag
          (some [⟨some "old", some "v"⟩, ⟨some "new", some "true"⟩]) "old" "new").tag_set.getD
          []).countP fun tag => decide (tag = ⟨some "new", some "true"⟩)) = 2 := by
  exact ⟨by decide, by decide⟩

/-- C4 as amended: when some tag of `C` is named `old`, the result is the
tags of `C` not named `old` with one tag `{new, b}` appended — every tag
named `old` removed, every other tag preserved, so a pre-existing tag named
`new` (possibly equal to `{new, b}`) is retained alongside the appended
one; with no tag named `old` the collection is returned unchanged; and from
an absent collection the result is always the singleton `{new, b}`. -/
theorem replace_amended_spec (tags : List Tag) (old_tag_name new_tag_name : String) (b : Bool) :
    replace (some tags) old_tag_name new_tag_name b =
      (if tags.any fun tag => tag.key == some old_tag_name then
        (⟨some ((tags.filter fun tag => tag.key != some old_tag_name)
          ++ [⟨some new_tag_name, some (bool_string b)⟩])⟩ : Tagging)
      else ⟨some tags⟩) ∧
    replace none old_tag_name new_tag_name b =
      (⟨some [⟨some new_tag_name, some (bool_string b)⟩]⟩ : Tagging) := by
  cases b <;> exact ⟨rfl, rfl⟩

/-- C9: the validator is not total — for present object keys with no file
stem, such as `".."` and `""`, `check_file_name` hits the `unwrap` of a
`None` file stem (embedded as the outer `none`, the panic), and
`is_valid_file` panics instead of returning a verdict. -/
theorem is_valid_file_not_total :
    check_file_name ⟨⟨some "my-bucket"⟩, ⟨some "..", some 5, some "v1"⟩⟩ = none ∧
    is_valid_file ⟨⟨some "my-bucket"⟩, ⟨some "..", some 5, some "v1"⟩⟩ = none ∧
    is_valid_file ⟨⟨some "my-bucket"⟩, ⟨some "", some 5, some "v1"⟩⟩ = none := by
  exact ⟨rfl, rfl, rfl⟩

/-- C2 evaluated at a concrete invalid event: the workflow stamps
`validating` and `validated`, fetches the current tags, merges and writes
them back, and sends the failure message carrying the two fixed URLs — but
the outcome tag it appends is named `"quarentine"` (the code's misspelling),
not `"quarantine"` as the claim and the code's own comment state: no store
call in the trace writes a `"quarantine"` tag. -/
theorem quarentine_branch_evaluation :
    function_handler sample_env sample_world ⟨[⟨sample_invalid_entity⟩], "req-1"⟩ =
      (some (Except.ok ⟨"req-1",
          "Invalid file extension, should be .txt, Invalid size, it should be greater than 0, Invalid file name format, it should be formated as a Prod ID"⟩),
        [Call.putObjectTagging "my-bucket" "bad.csv" "v1" (tag_as_true "validating"),
         Call.putObjectTagging "my-bucket" "bad.csv" "v1" (tag_as_true "validated"),
         Call.getObjectTagging "my-bucket" "bad.csv" "v1",
         Call.putObjectTagging "my-bucket" "bad.csv" "v1"
           ⟨some [⟨some "validated", some "true"⟩, ⟨some "quarentine", some "true"⟩]⟩,
         Call.sendMessage "https://sqs/failure"
           ⟨"Validation_Workflow", "req-1", ["CD-TECH", "AM-DEVS"],
             "Invalid file extension, should be .txt, Invalid size, it should be greater than 0, Invalid file name format, it should be formated as a Prod ID",
             some "https://example.com/continue", some "https://example.com/abort"⟩
           "ValidationGroup"]) ∧
    Call.putObjectTagging "my-bucket" "bad.csv" "v1"
        ⟨some [⟨some "validated", some "true"⟩, ⟨some "quarantine", some "true"⟩]⟩
      ∉ (function_handler sample_env sample_world ⟨[⟨sample_invalid_entity⟩], "req-1"⟩).2 := by
  exact ⟨rfl, by decide⟩

/-- C10: only the first record of the event is processed — the handler's
outcome and calls do not depend on any further records — and an event with
zero records fails with a fatal error before any store or channel call. -/
theorem first_record_only (env : Env) (w : S3World) (r : S3EventRecord)
    (rest : List S3EventRecord) (request_id : String) :
    function_handler env w ⟨r :: rest, request_id⟩ = function_handler env w ⟨[r], request_id⟩ ∧
    ∃ msg, function_handler env w ⟨[], request_id⟩ = (some (Except.error msg), []) := by
  obtain ⟨su, fu⟩ := env
  cases su <;> cases fu <;> exact ⟨rfl, ⟨_, rfl⟩⟩

/-- Both upsert directions compute the same shape: the prior tags whose key
differs, with the fresh tag appended. -/
theorem upsert_tag_set (existing : Option (List Tag)) (n : String) (b : Bool) :
    (upsert existing n b).tag_set =
      some (((existing.getD []).filter fun tag => tag.key != some n)
        ++ [⟨some n, some (bool_string b)⟩]) := by
  cases b <;> cases existing <;> rfl

/-- C1: the upsert (`add_true_tag` / `add_false_tag`, boolean-indexed as
`upsert`) yields a present collection holding exactly one tag named `n`,
that tag's value the boolean's string, every tag of the input whose name
differs from `n` preserved (as sets, order not guaranteed), and from an
absent input the singleton. -/
theorem upsert_exactly_one (existing : Option (List Tag)) (n : String) (b : Bool) :
    ∃ l, (upsert existing n b).tag_set = some l ∧
      (l.countP fun tag => tag.key == some n) = 1 ∧
      (∀ tag ∈ l, tag.key = some n → tag.value = some (bool_string b)) ∧
      (∀ tag : Tag, tag.key ≠ some n → (tag ∈ l ↔ tag ∈ existing.getD [])) ∧
      (existing = none → l = [⟨some n, some (bool_string b)⟩]) := by
  refine ⟨((existing.getD []).filter fun tag => tag.key != some n)
    ++ [⟨some n, some (bool_string b)⟩], upsert_tag_set existing n b, ?_, ?_, ?_, ?_⟩
  · rw [List.countP_append]
    have h0 : (((existing.getD []).filter fun tag => tag.key != some n).countP
        fun tag => tag.key == some n) = 0 := by
      rw [List.countP_eq_zero]
      intro a ha
      have hne := (List.mem_filter.mp ha).2
      simp only [bne_iff_ne, ne_eq] at hne
      simp [hne]
    simp [h0]
  · intro tag htag hkey
    rcases List.mem_append.mp htag with hmem | hmem
    · have hne := (List.mem_filter.mp hmem).2
      simp only [bne_iff_ne, ne_eq] at hne
      exact absurd hkey hne
    · rw [List.mem_singleton.mp hmem]
  · intro tag hkey
    constructor
    · intro htag
      rcases List.mem_append.mp htag with hmem | hmem
      · exact (List.mem_filter.mp hmem).1
      · exact absurd (congrArg Tag.key (List.mem_singleton.mp hmem)) hkey
    · intro htag
      refine List.mem_append.mpr (Or.inl (List.mem_filter.mpr ⟨htag, ?_⟩))
      simpa [bne_iff_ne] using hkey
  · intro h
    subst h
    rfl

/-- C3: whenever the validator returns a verdict (the name check does not
panic), all three checks have been evaluated: the verdict is
`(true, "File is valid")` exactly when no check failed, and otherwise
`(false, m)` where `m` joins every failed check's reason with `", "` in
check-declaration order — extension, size, name — not just the first. -/
theorem is_valid_file_aggregates (s3_entity : S3Entity) (name_check : Option String)
    (h : check_file_name s3_entity = some name_check) :
    is_valid_file s3_entity =
      some
        (if ([check_file_extension s3_entity, check_file_size s3_entity,
            name_check].filterMap id).isEmpty then
          (true, "File is valid")
        else
          (false, String.intercalate ", "
            ([check_file_extension s3_entity, check_file_size s3_entity,
              name_check].filterMap id))) := by
  by_cases hE : ([check_file_extension s3_entity, check_file_size s3_entity,
      name_check].filterMap id).isEmpty
  · simp [is_valid_file, h, hE]
  · simp [is_valid_file, h, hE]

/-- `is_valid_file_aggregates` at the concrete invalid entity: wrong
extension and zero size together with the failed name check, all three
reasons joined in declaration order. -/
theorem is_valid_file_aggregates_witness :
    is_valid_file sample_invalid_entity =
      some
        (if ([check_file_extension sample_invalid_entity, check_file_size sample_invalid_entity,
            some "Invalid file name format, it should be formated as a Prod ID"].filterMap
            id).isEmpty then
          (true, "File is valid")
        else
          (false, String.intercalate ", "
            ([check_file_extension sample_invalid_entity, check_file_size sample_invalid_entity,
              some "Invalid file name format, it should be formated as a Prod ID"].filterMap
              id))) :=
  is_valid_file_aggregates sample_invalid_entity
    (some "Invalid file name format, it should be formated as a Prod ID") (by decide)

/-- C6: when the event's first record lacks the bucket name, the object key
or the object version id, the handler returns one of the fixed
missing-field error messages and its call trace is empty — no object-store
call and no message-channel call is made, so no tag is mutated. -/
theorem missing_field_aborts (env : Env) (w : S3World) (event : LambdaEvent)
    (record : S3EventRecord) (h1 : event.records.head? = some record)
    (h2 : record.s3.bucket.name = none ∨ record.s3.object.key = none ∨
      record.s3.object.version_id = none) :
    ∃ msg, function_handler env w event = (some (Except.error msg), []) ∧
      msg ∈ ["Missing SUCCESS_QUEUE_URL environment variable",
        "Missing FAILURE_QUEUE_URL environment variable", "Missing bucket name",
        "Missing object key",
        "Object has no version ID defined, is versioning enabled in the bucket?"] := by
  obtain ⟨su, fu⟩ := env
  cases su with
  | none => exact ⟨_, rfl, by simp⟩
  | some su =>
    cases fu with
    | none => exact ⟨_, rfl, by simp⟩
    | some fu =>
      cases hb : record.s3.bucket.name with
      | none =>
        refine ⟨"Missing bucket name", ?_, by simp⟩
        simp [function_handler, h1, single_tag, hb]
      | some bucket_name =>
        cases hk : record.s3.object.key with
        | none =>
          refine ⟨"Missing object key", ?_, by simp⟩
          simp [function_handler, h1, single_tag, hb, hk]
        | some raw_key =>
          cases hv : record.s3.object.version_id with
          | none =>
            refine ⟨"Object has no version ID defined, is versioning enabled in the bucket?",
              ?_, by simp⟩
            simp [function_handler, h1, single_tag, hb, hk, hv]
          | some version_id =>
            rcases h2 with h | h | h <;> simp_all

/-- `missing_field_aborts` at a concrete event whose object has no version
id: the handler stops with a missing-field message and issues no call. -/
theorem missing_field_aborts_witness :
    ∃ msg, function_handler sample_env sample_world
        ⟨[⟨sample_unversioned_entity⟩], "req-2"⟩ = (some (Except.error msg), []) ∧
      msg ∈ ["Missing SUCCESS_QUEUE_URL environment variable",
        "Missing FAILURE_QUEUE_URL environment variable", "Missing bucket name",
        "Missing object key",
        "Object has no version ID defined, is versioning enabled in the bucket?"] :=
  missing_field_aborts sample_env sample_world ⟨[⟨sample_unversioned_entity⟩], "req-2"⟩
    ⟨sample_unversioned_entity⟩ rfl (Or.inr (Or.inr rfl))

/-- Every S3 call `single_tag` issues carries the `+`-decoded object key. -/
theorem single_tag_store_key (w : S3World) (e : S3Entity) (tag_name raw_key : String)
    (h : e.object.key = some raw_key) :
    ∀ c ∈ (single_tag w e tag_name).2, c.storeKey = some (decode_plus raw_key) := by
  cases hb : e.bucket.name with
  | none => simp [single_tag, hb]
  | some bucket_name =>
    cases hv : e.object.version_id with
    | none => simp [single_tag, hb, h, hv]
    | some version_id =>
      cases hr : w.putTaggingResult bucket_name (decode_plus raw_key) version_id
          (tag_as_true tag_name) with
      | ok u => simp [single_tag, hb, h, hv, hr, Call.storeKey]
      | error err => simp [single_tag, hb, h, hv, hr, Call.storeKey]

/-- Every S3 call `add_tag` issues carries the `+`-decoded object key. -/
theorem add_tag_store_key (w : S3World) (e : S3Entity) (tag_name raw_key : String)
    (h : e.object.key = some raw_key) :
    ∀ c ∈ (add_tag w e tag_name).2, c.storeKey = some (decode_plus raw_key) := by
  cases hb : e.bucket.name with
  | none => simp [add_tag, hb]
  | some bucket_name =>
    cases hv : e.object.version_id with
    | none => simp [add_tag, hb, h, hv]
    | some version_id =>
      cases hg : w.getTaggingResult bucket_name (decode_plus raw_key) version_id with
      | error err => simp [add_tag, hb, h, hv, hg, Call.storeKey]
      | ok current_tags =>
        cases hr : w.putTaggingResult bucket_name (decode_plus raw_key) version_id
            (add_true_tag current_tags tag_name) with
        | ok u =>
          intro c hc
          simp [add_tag, hb, h, hv, hg, hr] at hc
          rcases hc with hc | hc <;> rw [hc] <;> rfl
        | error err =>
          intro c hc
          simp [add_tag, hb, h, hv, hg, hr] at hc
          rcases hc with hc | hc <;> rw [hc] <;> rfl

/-- Every call of the handler's trace is issued by one of its four tagging
steps for the first record, or is a message-channel call (no store key). -/
theorem function_handler_trace_sub (env : Env) (w : S3World) (event : LambdaEvent)
    (record : S3EventRecord) (h1 : event.records.head? = some record) :
    ∀ c ∈ (function_handler env w event).2,
      c ∈ (single_tag w record.s3 "validating").2 ∨
      c ∈ (single_tag w record.s3 "validated").2 ∨
      c ∈ (add_tag w record.s3 "valid").2 ∨
      c ∈ (add_tag w record.s3 "quarentine").2 ∨
      c.storeKey = none := by
  intro c hc
  obtain ⟨su, fu⟩ := env
  cases su with
  | none => simp [function_handler] at hc
  | some su =>
    cases fu with
    | none => simp [function_handler] at hc
    | some fu =>
      simp only [function_handler, h1] at hc
      repeat' split at hc
      all_goals simp only [List.mem_append, List.mem_singleton, List.not_mem_nil,
        or_false, false_or] at hc
      all_goals
        repeat
          first
            | exact Or.inl hc
            | exact Or.inr (Or.inl hc)
            | exact Or.inr (Or.inr (Or.inl hc))
            | exact Or.inr (Or.inr (Or.inr (Or.inl hc)))
            | (rw [hc]; exact Or.inr (Or.inr (Or.inr (Or.inr rfl))))
            | rcases hc with hc | hc

/-- C8: for every event whose first record carries an object key, every
object-store call the handler issues (the tag writes and the tag read
alike) uses the key with every literal `+` decoded to a space; the
message-channel call carries no key. -/
theorem store_calls_use_decoded_key (env : Env) (w : S3World) (event : LambdaEvent)
    (record : S3EventRecord) (raw_key : String)
    (h1 : event.records.head? = some record)
    (h2 : record.s3.object.key = some raw_key) :
    ∀ c ∈ (function_handler env w event).2, ∀ k, c.storeKey = some k →
      k = decode_plus raw_key := by
  intro c hc k hk
  rcases function_handler_trace_sub env w event record h1 c hc with hm | hm | hm | hm | hm
  · have := single_tag_store_key w record.s3 "validating" raw_key h2 c hm
    rw [this] at hk
    exact (Option.some_inj.mp hk).symm
  · have := single_tag_store_key w record.s3 "validated" raw_key h2 c hm
    rw [this] at hk
    exact (Option.some_inj.mp hk).symm
  · have := add_tag_store_key w record.s3 "valid" raw_key h2 c hm
    rw [this] at hk
    exact (Option.some_inj.mp hk).symm
  · have := add_tag_store_key w record.s3 "quarentine" raw_key h2 c hm
    rw [this] at hk
    exact (Option.some_inj.mp hk).symm
  · rw [hm] at hk
    exact absurd hk (by simp)

/-- `store_calls_use_decoded_key` at a concrete event whose key holds a
`+`: the key the first store call carries is the decoded one. -/
theorem store_calls_use_decoded_key_witness :
    "1-2-3-4 x.txt" = decode_plus "1-2-3-4+x.txt" :=
  store_calls_use_decoded_key sample_env sample_world ⟨[⟨sample_plus_entity⟩], "req-3"⟩
    ⟨sample_plus_entity⟩ "1-2-3-4+x.txt" rfl rfl
    (Call.putObjectTagging "my-bucket" "1-2-3-4 x.txt" "v1" (tag_as_true "validating"))
    (by decide) "1-2-3-4 x.txt" rfl

end S3Tagging
